import Mathlib

/-!
Verification of the fulfillment-tracking order-lookup pipeline.

The repository contains two variants of the same Next.js API route:
* `src/unnamed/part_000` — signed-proxy mode (Shopify App Proxy HMAC
  signature, optional tenant/shop allowlist);
* `src/api/order-lookup.ts` — browser/CORS mode (Origin allowlist,
  optional reCAPTCHA gate).

Both are shallowly embedded below.  Query parameters are modelled as the
decoded list of key/value pairs in their original order; the Node `crypto`
HMAC-SHA256 primitive is an external collaborator and is abstracted as a
function parameter `hmac : String → String → String` (secret, message ↦
hex digest); the two network collaborators (the CAPTCHA provider and the
backend GraphQL call) are inputs of type `Except String _`, where
`Except.error m` models the call throwing an exception whose `message` is
`m` (`""` standing for a falsy/absent message).  Environment variables
that may be unset are modelled as `String` with `""` for unset, matching
the JS truthiness checks (`!X`) the source applies to them.
-/

namespace FulfillmentTracking

/-- Decoded query parameters in original order (`URLSearchParams` iteration
order); a key may repeat. -/
abbrev Params := List (String × String)

/-- `url.searchParams.get(k) || d`: first value of `k`, or `d` when absent.
(`get` returns the first value of a repeated key; `null` and, via `|| d`,
the empty string fall back to `d` — for the source's uses `d` is `''`, so
the two coincide.) -/
def getParamD (ps : Params) (k d : String) : String :=
  ((ps.find? fun p => p.1 = k).map Prod.snd).getD d

/-- JS `String.prototype.toLowerCase` restricted to the ASCII range the
source's inputs live in. -/
def jsToLower (s : String) : String :=
  String.mk (s.data.map Char.toLower)

/-- JS regex `\s` / `String.prototype.trim` whitespace membership,
restricted to the ASCII whitespace the source's inputs can contain. -/
def isJsSpace (c : Char) : Bool :=
  c = ' ' ∨ c = Char.ofNat 9 ∨ c = Char.ofNat 10 ∨
    c = Char.ofNat 11 ∨ c = Char.ofNat 12 ∨ c = Char.ofNat 13

/-- Drop leading whitespace characters. -/
def dropLeadingSpaces : List Char → List Char
  | [] => []
  | c :: cs => if isJsSpace c then dropLeadingSpaces cs else c :: cs

/-- JS `String.prototype.trim`: strip whitespace from both ends. -/
def jsTrim (s : String) : String :=
  String.mk ((dropLeadingSpaces (dropLeadingSpaces s.data).reverse).reverse)

/-- `s.replace(/'/g, "\\'")` from both handlers' `esc`: every single-quote
character is prefixed with a backslash. -/
def escQuotes (s : String) : String :=
  String.mk (s.data.flatMap fun c =>
    if c = Char.ofNat 39 then [Char.ofNat 92, Char.ofNat 39] else [c])

/-- `orderRaw.replace(/^#/, '')`: at most one leading `#` is removed. -/
def stripLeadingHash (s : String) : String :=
  match s.data with
  | '#' :: rest => String.mk rest
  | _ => s

/-- The filter expression both handlers build:
`` `email:'${esc(emailRaw)}' AND name:'${esc(orderName)}'` ``. -/
def buildQuery (emailSan orderName : String) : String :=
  "email:'" ++ escQuotes emailSan ++ "' AND name:'" ++ escQuotes orderName ++ "'"

/-! ## SignatureVerifier (`src/unnamed/part_000`) -/

/-- `timingSafeEqual` from the source: a length check, then an elementwise
comparison of the two byte sequences (`crypto.timingSafeEqual` on the
UTF-8 buffers; the digests compared are ASCII hex, where bytes and
characters coincide). -/
def timingSafeEqual (a b : String) : Bool :=
  a.data.length == b.data.length &&
    (a.data.zip b.data).all fun p => p.1 == p.2

/-- The values of key `k` among the non-`signature` parameters, in their
original order (the multimap built by `verifyProxySignature`). -/
def sigValues (ps : Params) (k : String) : List String :=
  ((ps.filter fun p => ¬ p.1 = "signature").filter fun p => p.1 = k).map Prod.snd

/-- The distinct keys of the non-`signature` parameters (a JS `Map` holds
each key once; their order is irrelevant because they are sorted next). -/
def sigKeys (ps : Params) : List String :=
  ((ps.filter fun p => ¬ p.1 = "signature").map Prod.fst).dedup

/-- Lexicographic ordering on character sequences, the default JS string
sort order (comparison by code unit; the keys here are ASCII, where code
units and code points coincide). -/
def charListLe : List Char → List Char → Bool
  | [], _ => true
  | _ :: _, [] => false
  | a :: as, b :: bs =>
    if a < b then true
    else if b < a then false
    else charListLe as bs

/-- Insertion step of `Array.prototype.sort()` on the keys (default JS
sort on strings: lexicographic ascending). -/
def insertKey (k : String) : List String → List String
  | [] => [k]
  | x :: xs => if charListLe k.data x.data then k :: x :: xs else x :: insertKey k xs

/-- Ascending string sort, modelling `Array.from(map.keys()).sort()`. -/
def sortKeys (l : List String) : List String :=
  l.foldr insertKey []

/-- The canonical message: keys sorted ascending, each key's values joined
with `,` in original order, the `key=value` pairs concatenated with no
separator. -/
def canonicalMessage (ps : Params) : String :=
  String.join ((sortKeys (sigKeys ps)).map fun k =>
    k ++ "=" ++ String.intercalate "," (sigValues ps k))

/-- `verifyProxySignature`: reject when the provided `signature` parameter
or the shared secret is empty, else compare the hex HMAC of the canonical
message against the provided signature with `timingSafeEqual`. -/
def verifyProxySignature (hmac : String → String → String) (secret : String)
    (ps : Params) : Bool :=
  let provided := getParamD ps "signature" ""
  if provided = "" ∨ secret = "" then false
  else timingSafeEqual (hmac secret (canonicalMessage ps)) provided

/-! ## Status formatting (`titleCase` in the two variants)

The proxy variant's regex is `/(^|\s)\S/g` with replacement
`m => m.toUpperCase()`: each maximal match is either a single non-space
character at the start of the string or a space character followed by a
non-space character, and uppercasing the match uppercases exactly the
non-space character (a space is unchanged by `toUpperCase`).  Since the
replacement never turns a space into a non-space or vice versa, the
global replace uppercases precisely every non-space character that is at
position 0 or preceded by a space character. -/

/-- One left-to-right pass of `replace(/(^|\s)\S/g, m => m.toUpperCase())`:
`boundary` records whether the position is the string start or follows a
space character. -/
def upperAfterBoundary : Bool → List Char → List Char
  | _, [] => []
  | boundary, c :: cs =>
    if isJsSpace c then c :: upperAfterBoundary true cs
    else (if boundary then c.toUpper else c) :: upperAfterBoundary false cs

/-- `s.replace(/_/g, ' ')`. -/
def underscoresToSpaces (s : String) : String :=
  String.mk (s.data.map fun c => if c = '_' then ' ' else c)

/-- `titleCase` of `src/unnamed/part_000`: underscores to spaces,
lowercase, then uppercase the first character of every word. -/
def titleCase (s : String) : String :=
  String.mk (upperAfterBoundary true ((underscoresToSpaces s).data.map Char.toLower))

/-! The CORS variant (`src/api/order-lookup.ts`) instead uses the regex
literal `/(^|\\s)\\S/g`.  Inside a regex literal `\\` is an escaped
backslash, so this pattern matches `(start-of-string | the two characters
backslash,s)` followed by the two characters backslash,S — not whitespace
and non-whitespace.  The global replace therefore rewrites only literal
`\S` at position 0 (to itself) and literal `\s\S` elsewhere (to `\S\S`),
and on ordinary status strings it changes nothing. -/

/-- Scan for matches of the literal 4-character sequence backslash,s,
backslash,S and uppercase each match (yielding backslash,S,backslash,S). -/
def brokenScan : List Char → List Char
  | '\\' :: 's' :: '\\' :: 'S' :: rest => '\\' :: 'S' :: '\\' :: 'S' :: brokenScan rest
  | c :: rest => c :: brokenScan rest
  | [] => []

/-- Global replace for `/(^|\\s)\\S/g` with uppercasing replacement: the
`^` alternative can only fire at position 0, on a literal backslash,S
(which uppercases to itself); after that the scan continues. -/
def brokenTitleReplace (l : List Char) : List Char :=
  match l with
  | '\\' :: 'S' :: rest => '\\' :: 'S' :: brokenScan rest
  | _ => brokenScan l

/-- `titleCase` of `src/api/order-lookup.ts`, with its miswritten regex
faithfully modelled. -/
def titleCaseCors (s : String) : String :=
  String.mk (brokenTitleReplace ((underscoresToSpaces s).data.map Char.toLower))

/-! ## Backend data model and result projection -/

/-- One tracking entry (`trackingInfo { number url company }`). -/
structure TrackingEntry where
  number : String
  url : String
  company : String
deriving DecidableEq

/-- One fulfillment group; its tracking list may be absent in the JSON. -/
structure Fulfillment where
  trackingInfo : Option (List TrackingEntry)
deriving DecidableEq

/-- The backend order node fields the handlers read; each may be absent
or `null` in the JSON. -/
structure OrderNode where
  name : String
  displayFulfillmentStatus : Option String
  statusPageUrl : Option String
  fulfillments : Option (List Fulfillment)
deriving DecidableEq

/-- JS `x || d` on a possibly-absent string: absent and the empty string
are both falsy. -/
def jsStringOr (o : Option String) (d : String) : String :=
  match o with
  | none => d
  | some s => if s = "" then d else s

/-- JS `x || null` on a possibly-absent string. -/
def jsUrlOrNull (o : Option String) : Option String :=
  match o with
  | none => none
  | some s => if s = "" then none else some s

/-- `(node.fulfillments || []).flatMap((f) => f.trackingInfo || [])`. -/
def flattenTracking (fulfillments : Option (List Fulfillment)) : List TrackingEntry :=
  (fulfillments.getD []).flatMap fun f => f.trackingInfo.getD []

/-- The JSON body and status the route returns (fields that a given
response does not carry are `none`). -/
structure ApiResponse where
  status : Nat
  error : Option String := none
  found : Option Bool := none
  orderName : Option String := none
  displayStatus : Option String := none
  statusPageUrl : Option (Option String) := none
  tracking : Option (List TrackingEntry) := none
deriving DecidableEq

/-- The observable parameters of the GraphQL POST to the backend: the
shop host in the endpoint URL, the API version path segment, the
`X-Shopify-Access-Token` header, and the `q` filter variable. -/
structure BackendCall where
  shop : String
  apiVersion : String
  token : String
  query : String
deriving DecidableEq

/-! ## The signed-proxy handler (`src/unnamed/part_000`) -/

/-- Environment configuration of the proxy variant; `""` models an unset
variable (the source tests them with JS truthiness). -/
structure ProxyConfig where
  apiSecret : String
  adminToken : String
  apiVersion : String
  allowedShop : String
deriving DecidableEq

/-- A handler run's outcome: the response plus the backend call it made,
`none` when the backend was never contacted. -/
structure ProxyResult where
  resp : ApiResponse
  backendCall : Option BackendCall
deriving DecidableEq

/-- The `handler` of `src/unnamed/part_000`.  `backend` is the outcome of
the `fetch` of the GraphQL endpoint plus JSON decoding: `Except.error m`
models a thrown exception with message `m` (caught by the handler's
`try/catch`), `Except.ok edges` the decoded `data.data.orders.edges` list
(an absent chain decodes to `[]`). -/
def proxyHandler (cfg : ProxyConfig) (hmac : String → String → String)
    (ps : Params) (backend : Except String (List OrderNode)) : ProxyResult :=
  if ¬ verifyProxySignature hmac cfg.apiSecret ps = true then
    ⟨{ status := 401, error := some "Invalid signature" }, none⟩
  else
    let shop := getParamD ps "shop" ""
    let orderRaw := jsTrim (getParamD ps "order" "")
    let emailRaw := jsToLower (jsTrim (getParamD ps "email" ""))
    if orderRaw = "" ∨ emailRaw = "" then
      ⟨{ status := 400, error := some "Missing order or email" }, none⟩
    else if cfg.allowedShop ≠ "" ∧ shop ≠ cfg.allowedShop then
      ⟨{ status := 403, error := some "Shop not allowed" }, none⟩
    else if cfg.adminToken = "" then
      ⟨{ status := 500, error := some "Missing ADMIN API token on server" }, none⟩
    else
      let orderName := stripLeadingHash orderRaw
      let q := buildQuery emailRaw orderName
      let call : BackendCall := ⟨shop, cfg.apiVersion, cfg.adminToken, q⟩
      match backend with
      | .error msg =>
        ⟨{ status := 500, error := some (if msg = "" then "Server error" else msg) }, some call⟩
      | .ok edges =>
        match edges.head? with
        | none => ⟨{ status := 200, found := some false }, some call⟩
        | some node =>
          ⟨{ status := 200, found := some true,
             orderName := some node.name,
             displayStatus := some (titleCase (jsStringOr node.displayFulfillmentStatus "UNKNOWN")),
             statusPageUrl := some (jsUrlOrNull node.statusPageUrl),
             tracking := some (flattenTracking node.fulfillments) }, some call⟩

/-! ## The CORS-mode handler (`src/api/order-lookup.ts`) -/

/-- Environment configuration of the CORS variant; `""` models an unset
variable.  `allowedOriginsRaw` is `process.env.ALLOWED_ORIGINS || ''`;
`minScore` is `Number(process.env.RECAPTCHA_MIN_SCORE || '0.5')`,
modelled as a rational. -/
structure CorsConfig where
  adminToken : String
  apiVersion : String
  shop : String
  allowedOriginsRaw : String
  recaptchaSecret : String
  minScore : ℚ
deriving DecidableEq

/-- `String.prototype.split(',')`: JS split on a one-character separator
(`''.split(',')` is `['']`). -/
def splitOnComma : List Char → List (List Char)
  | [] => [[]]
  | c :: cs =>
    if c = ',' then [] :: splitOnComma cs
    else
      match splitOnComma cs with
      | [] => [[c]]
      | g :: gs => (c :: g) :: gs

/-- `ALLOWED = (process.env.ALLOWED_ORIGINS || '').split(',').map(s => s.trim())`. -/
def allowedOrigins (raw : String) : List String :=
  (splitOnComma raw.data).map fun g => jsTrim (String.mk g)

/-- The CAPTCHA provider's decoded response: `{success: bool, score?: number}`
(`score = some x` when the provider sent a number). -/
structure CaptchaVerdict where
  success : Bool
  score : Option ℚ
deriving DecidableEq

/-- `verifyRecaptcha`.  `provider` is the outcome of the `fetch` of the
verification endpoint plus JSON decoding (`Except.error m` = it threw with
message `m`, propagated to the handler's `try/catch`).  Returns the
verdict together with a flag recording whether the provider was
contacted.  Note the source never tests the token for emptiness: when the
secret is configured the provider is contacted whatever the token is. -/
def verifyRecaptcha (secret : String) (minScore : ℚ) (_token : String)
    (provider : Except String CaptchaVerdict) : Except String Bool × Bool :=
  if secret = "" then (.ok true, false)
  else
    match provider with
    | .error msg => (.error msg, true)
    | .ok j =>
      if j.success = false then (.ok false, true)
      else
        match j.score with
        | some sc => if sc < minScore then (.ok false, true) else (.ok true, true)
        | none => (.ok true, true)

/-- A CORS-handler run's outcome: response body/status, the
`Access-Control-Allow-Origin` header (if set), whether `Vary: Origin` was
set, whether the CAPTCHA provider was contacted, and the backend call
made (if any). -/
structure CorsResult where
  resp : ApiResponse
  acao : Option String
  varyOrigin : Bool
  captchaContacted : Bool
  backendCall : Option BackendCall
deriving DecidableEq

/-- The `handler` of `src/api/order-lookup.ts`.  `origin` is
`req.headers.origin || ''`.  `setCORS` runs first: it sets the allow
header only for a truthy allowlisted origin and always sets
`Vary: Origin`; an `OPTIONS` request then short-circuits with 204. -/
def corsHandler (cfg : CorsConfig) (method : String) (origin : String)
    (ps : Params) (provider : Except String CaptchaVerdict)
    (backend : Except String (List OrderNode)) : CorsResult :=
  let allowed := allowedOrigins cfg.allowedOriginsRaw
  let acao : Option String :=
    if origin ≠ "" ∧ origin ∈ allowed then some origin else none
  if method = "OPTIONS" then
    ⟨{ status := 204 }, acao, true, false, none⟩
  else if origin ∉ allowed then
    ⟨{ status := 403, error := some "Origin not allowed" }, acao, true, false, none⟩
  else
    let orderRaw := jsTrim (getParamD ps "order" "")
    let emailRaw := jsToLower (jsTrim (getParamD ps "email" ""))
    let captcha := jsTrim (getParamD ps "captchaToken" "")
    if orderRaw = "" ∨ emailRaw = "" then
      ⟨{ status := 400, error := some "Missing order or email" }, acao, true, false, none⟩
    else if cfg.adminToken = "" ∨ cfg.shop = "" then
      ⟨{ status := 500, error := some "Server not configured" }, acao, true, false, none⟩
    else
      match verifyRecaptcha cfg.recaptchaSecret cfg.minScore captcha provider with
      | (.error msg, contacted) =>
        ⟨{ status := 500, error := some (if msg = "" then "Server error" else msg) },
          acao, true, contacted, none⟩
      | (.ok ok, contacted) =>
        if ok = false then
          ⟨{ status := 400, error := some "Captcha failed" }, acao, true, contacted, none⟩
        else
          let orderName := stripLeadingHash orderRaw
          let q := buildQuery emailRaw orderName
          let call : BackendCall := ⟨cfg.shop, cfg.apiVersion, cfg.adminToken, q⟩
          match backend with
          | .error msg =>
            ⟨{ status := 500, error := some (if msg = "" then "Server error" else msg) },
              acao, true, contacted, some call⟩
          | .ok edges =>
            match edges.head? with
            | none => ⟨{ status := 200, found := some false }, acao, true, contacted, some call⟩
            | some node =>
              ⟨{ status := 200, found := some true,
                 orderName := some node.name,
                 displayStatus := some (titleCaseCors (jsStringOr node.displayFulfillmentStatus "UNKNOWN")),
                 statusPageUrl := some (jsUrlOrNull node.statusPageUrl),
                 tracking := some (flattenTracking node.fulfillments) },
                acao, true, contacted, some call⟩

/-- The fixed short error messages that appear literally in the two
route variants. -/
def fixedErrorMessages : List String :=
  ["Invalid signature", "Missing order or email", "Shop not allowed",
   "Missing ADMIN API token on server", "Origin not allowed",
   "Server not configured", "Captcha failed", "Server error"]

/-! ## Concrete fixtures for witnesses and counterexamples -/

/-- A stand-in for the abstract HMAC collaborator: it returns the fixed
digest `"sig"`, so a request carrying `signature=sig` verifies. -/
def hmacStub : String → String → String := fun _ _ => "sig"

/-- Proxy configuration with the secret set and no shop allowlist. -/
def cfgOpenShop : ProxyConfig := ⟨"sek", "tok", "2025-07", ""⟩

/-- Proxy configuration with the secret set and an allowlisted shop. -/
def cfgLockedShop : ProxyConfig := ⟨"sek", "tok", "2025-07", "good.myshopify.com"⟩

/-- A fully valid signed request naming an attacker-controlled shop. -/
def psFull : Params :=
  [("signature", "sig"), ("order", "#1001"), ("email", "A'B@x.com"),
   ("shop", "attacker.example")]

/-- A signed request that is missing the order and email fields and names
a shop outside the allowlist. -/
def psNoFields : Params := [("signature", "sig"), ("shop", "evil.example")]

/-- CORS configuration with the origin allowlist left unset. -/
def cfgNoOrigins : CorsConfig := ⟨"tok", "2025-07", "s.myshopify.com", "", "", 1 / 2⟩

/-- CORS configuration allowlisting one origin, CAPTCHA disabled. -/
def cfgOneOrigin : CorsConfig :=
  ⟨"tok", "2025-07", "s.myshopify.com", "https://a.example", "", 1 / 2⟩

/-- Tracking fixtures for the flattening example. -/
def teA : TrackingEntry := ⟨"TA100", "https://t.example/a", "CarrierA"⟩

def teB : TrackingEntry := ⟨"TB200", "https://t.example/b", "CarrierB"⟩

def teC : TrackingEntry := ⟨"TC300", "https://t.example/c", "CarrierC"⟩

/-- A backend record with no fulfillment-status value. -/
def nodeNoStatus : OrderNode := ⟨"#1001", none, none, none⟩

/-- A backend record whose raw status is `UNFULFILLED`. -/
def nodeUnfulfilled : OrderNode := ⟨"#1001", some "UNFULFILLED", none, none⟩

/-- A valid unsigned (CORS-mode) request. -/
def psCors : Params := [("order", "#1001"), ("email", "A'B@x.com")]

/-! ## Lemmas about the constant-time comparison -/

theorem zip_all_eq_iff {l₁ l₂ : List Char} (h : l₁.length = l₂.length) :
    ((l₁.zip l₂).all fun p => p.1 == p.2) = true ↔ l₁ = l₂ := by
  induction l₁ generalizing l₂ with
  | nil => cases l₂ with
    | nil => simp
    | cons b bs => simp at h
  | cons a as ih => cases l₂ with
    | nil => simp at h
    | cons b bs =>
      simp only [List.zip_cons_cons, List.all_cons, Bool.and_eq_true, beq_iff_eq,
        List.cons.injEq]
      constructor
      · rintro ⟨hab, hrest⟩
        exact ⟨hab, (ih (by simpa using h)).mp hrest⟩
      · rintro ⟨hab, hrest⟩
        exact ⟨hab, (ih (by simpa using h)).mpr hrest⟩

/-- The length-checked byte comparison succeeds exactly on equal strings. -/
theorem timingSafeEqual_iff (a b : String) :
    timingSafeEqual a b = true ↔ a = b := by
  unfold timingSafeEqual
  simp only [Bool.and_eq_true, beq_iff_eq]
  constructor
  · rintro ⟨hlen, hall⟩
    have : a.data = b.data := (zip_all_eq_iff hlen).mp hall
    cases a; cases b; exact congrArg String.mk this
  · rintro rfl
    exact ⟨rfl, (zip_all_eq_iff rfl).mpr rfl⟩

/-- Unfolding lemma for the verifier (the `let` written out). -/
theorem verifyProxySignature_eq (hmac : String → String → String)
    (secret : String) (ps : Params) :
    verifyProxySignature hmac secret ps =
      if getParamD ps "signature" "" = "" ∨ secret = "" then false
      else timingSafeEqual (hmac secret (canonicalMessage ps))
        (getParamD ps "signature" "") := rfl

/-- C1: In signed-proxy mode, the signature verifier accepts if and only if
the signing secret is non-empty, the provided `signature` query parameter
is non-empty, and the hex HMAC of the canonical message (non-`signature`
parameters grouped by key, values comma-joined in original order, keys
sorted ascending, `key=value` pairs concatenated with no separator) under
that secret equals the provided signature byte for byte; on rejection the
handler returns 401 and the backend is never contacted. -/
theorem C1_signature_accepts_iff (hmac : String → String → String)
    (cfg : ProxyConfig) (ps : Params) (backend : Except String (List OrderNode)) :
    (verifyProxySignature hmac cfg.apiSecret ps = true ↔
      (cfg.apiSecret ≠ "" ∧ getParamD ps "signature" "" ≠ "" ∧
        hmac cfg.apiSecret (canonicalMessage ps) = getParamD ps "signature" "")) ∧
    (¬ verifyProxySignature hmac cfg.apiSecret ps = true →
      proxyHandler cfg hmac ps backend =
        ⟨{ status := 401, error := some "Invalid signature" }, none⟩) := by
  constructor
  · rw [verifyProxySignature_eq]
    by_cases h : getParamD ps "signature" "" = "" ∨ cfg.apiSecret = ""
    · rw [if_pos h]
      constructor
      · intro hf; exact absurd hf (by simp)
      · rintro ⟨h1, h2, _⟩
        exact (Or.elim h h2 h1).elim
    · push_neg at h
      rw [if_neg fun hc => Or.elim hc h.1 h.2, timingSafeEqual_iff]
      exact ⟨fun he => ⟨h.2, h.1, he⟩, fun hr => hr.2.2⟩
  · intro h
    unfold proxyHandler
    rw [if_pos h]

/-- C1 witness: with the secret unset the verifier rejects, and the handler
answers 401 with no backend call. -/
theorem C1_signature_accepts_iff_witness :
    proxyHandler ⟨"", "tok", "2025-07", ""⟩ hmacStub [] (.ok []) =
      ⟨{ status := 401, error := some "Invalid signature" }, none⟩ :=
  (C1_signature_accepts_iff hmacStub ⟨"", "tok", "2025-07", ""⟩ [] (.ok [])).2
    (by decide)

/-- Whenever the proxy handler contacts the backend, the call it makes is
fully determined: host = the `shop` parameter, the admin token in the
header, and the sanitized filter expression as the query. -/
theorem proxyHandler_backendCall (cfg : ProxyConfig) (hmac : String → String → String)
    (ps : Params) (backend : Except String (List OrderNode)) (call : BackendCall)
    (h : (proxyHandler cfg hmac ps backend).backendCall = some call) :
    call = ⟨getParamD ps "shop" "", cfg.apiVersion, cfg.adminToken,
      buildQuery (jsToLower (jsTrim (getParamD ps "email" "")))
        (stripLeadingHash (jsTrim (getParamD ps "order" "")))⟩ := by
  obtain ⟨cs, cv, ct, cq⟩ := call
  by_cases h1 : verifyProxySignature hmac cfg.apiSecret ps = true
  case neg => simp [proxyHandler, h1] at h
  by_cases h2 : jsTrim (getParamD ps "order" "") = "" ∨ jsToLower (jsTrim (getParamD ps "email" "")) = ""
  case pos => simp [proxyHandler, h1, h2] at h
  by_cases h3 : cfg.allowedShop ≠ "" ∧ getParamD ps "shop" "" ≠ cfg.allowedShop
  case pos => simp [proxyHandler, h1, h2, h3] at h
  by_cases h4 : cfg.adminToken = ""
  case pos => simp [proxyHandler, h1, h2, h3, h4] at h
  cases backend with
  | error msg =>
    simp [proxyHandler, h1, h2, h3, h4] at h
    simp [h.1, h.2.1, h.2.2.1, h.2.2.2]
  | ok edges =>
    cases edges with
    | nil =>
      simp [proxyHandler, h1, h2, h3, h4] at h
      simp [h.1, h.2.1, h.2.2.1, h.2.2.2]
    | cons node rest =>
      simp [proxyHandler, h1, h2, h3, h4] at h
      simp [h.1, h.2.1, h.2.2.1, h.2.2.2]

/-- Whenever the CORS handler contacts the backend, the call it makes is
fully determined: host = the configured shop, the admin token, and the
sanitized filter expression as the query. -/
theorem corsHandler_backendCall (cfg : CorsConfig) (method origin : String)
    (ps : Params) (provider : Except String CaptchaVerdict)
    (backend : Except String (List OrderNode)) (call : BackendCall)
    (h : (corsHandler cfg method origin ps provider backend).backendCall = some call) :
    call = ⟨cfg.shop, cfg.apiVersion, cfg.adminToken,
      buildQuery (jsToLower (jsTrim (getParamD ps "email" "")))
        (stripLeadingHash (jsTrim (getParamD ps "order" "")))⟩ := by
  obtain ⟨cs, cv, ct, cq⟩ := call
  by_cases h1 : method = "OPTIONS"
  case pos => simp [corsHandler, h1] at h
  by_cases h2 : origin ∈ allowedOrigins cfg.allowedOriginsRaw
  case neg => simp [corsHandler, h1, h2] at h
  by_cases h3 : jsTrim (getParamD ps "order" "") = "" ∨ jsToLower (jsTrim (getParamD ps "email" "")) = ""
  case pos => simp [corsHandler, h1, h2, h3] at h
  by_cases h4 : cfg.adminToken = "" ∨ cfg.shop = ""
  case pos => simp [corsHandler, h1, h2, h3, h4] at h
  rcases hv : verifyRecaptcha cfg.recaptchaSecret cfg.minScore
      (jsTrim (getParamD ps "captchaToken" "")) provider with ⟨vr, contacted⟩
  cases vr with
  | error msg => simp [corsHandler, h1, h2, h3, h4, hv] at h
  | ok ok =>
    by_cases h5 : ok = false
    case pos => simp [corsHandler, h1, h2, h3, h4, hv, h5] at h
    cases backend with
    | error msg =>
      simp [corsHandler, h1, h2, h3, h4, hv, h5] at h
      simp [h.1, h.2.1, h.2.2.1, h.2.2.2]
    | ok edges =>
      cases edges with
      | nil =>
        simp [corsHandler, h1, h2, h3, h4, hv, h5] at h
        simp [h.1, h.2.1, h.2.2.1, h.2.2.2]
      | cons node rest =>
        simp [corsHandler, h1, h2, h3, h4, hv, h5] at h
        simp [h.1, h.2.1, h.2.2.1, h.2.2.2]

/-- C2: for every order identifier and email that pass input validation
(i.e. whenever either handler reaches the backend), the single filter
expression handed to the backend is exactly `email:'E' AND name:'N'`,
where `E` is the email trimmed and lowercased with every single quote
backslash-escaped, and `N` is the order trimmed with one leading `#`
removed and every single quote backslash-escaped. -/
theorem C2_filter_expression (ps : Params) (call : BackendCall)
    (h : (∃ cfg hmac backend,
            (proxyHandler cfg hmac ps backend).backendCall = some call) ∨
         (∃ cfg method origin provider backend,
            (corsHandler cfg method origin ps provider backend).backendCall = some call)) :
    call.query =
      "email:'" ++ escQuotes (jsToLower (jsTrim (getParamD ps "email" ""))) ++
        "' AND name:'" ++
        escQuotes (stripLeadingHash (jsTrim (getParamD ps "order" ""))) ++ "'" := by
  rcases h with ⟨cfg, hmac, backend, h⟩ | ⟨cfg, method, origin, provider, backend, h⟩
  · rw [proxyHandler_backendCall cfg hmac ps backend call h]
    rfl
  · rw [corsHandler_backendCall cfg method origin ps provider backend call h]
    rfl

/-- C2 witness: the spec's own example — order `#1001`, email
`A'B@x.com` — produces `email:'a\'b@x.com' AND name:'1001'`. -/
theorem C2_filter_expression_witness :
    (⟨"attacker.example", "2025-07", "tok",
        "email:'a\\'b@x.com' AND name:'1001'"⟩ : BackendCall).query =
      "email:'" ++ escQuotes (jsToLower (jsTrim (getParamD psFull "email" ""))) ++
        "' AND name:'" ++
        escQuotes (stripLeadingHash (jsTrim (getParamD psFull "order" ""))) ++ "'" :=
  C2_filter_expression psFull
    ⟨"attacker.example", "2025-07", "tok", "email:'a\\'b@x.com' AND name:'1001'"⟩
    (Or.inl ⟨cfgOpenShop, hmacStub, .ok [], by decide⟩)

/-- C3 counterexample: with a CAPTCHA secret configured and an EMPTY
token, the stage still contacts the provider (second component `true`)
and, if the provider answers success with no score, the stage accepts —
the claim says an empty token is rejected without contacting the
provider. -/
theorem C3_captcha_counterexample :
    verifyRecaptcha "sek" (1 / 2) "" (.ok ⟨true, none⟩) = (.ok true, true) := rfl

/-- C3 (amended): when a CAPTCHA secret is configured, the stage accepts
if and only if the provider's response has success = true and any numeric
score present is at or above the configured minimum; a success response
with no score is accepted.  The token's emptiness is never checked
locally: the provider is contacted for every token, the empty one
included.  When no secret is configured the stage always accepts without
contacting the provider. -/
theorem C3_captcha_gate (secret : String) (minScore : ℚ) (token : String)
    (j : CaptchaVerdict) (sc : ℚ) (provider : Except String CaptchaVerdict) :
    (verifyRecaptcha "" minScore token provider = (.ok true, false)) ∧
    (secret ≠ "" → (verifyRecaptcha secret minScore token provider).2 = true) ∧
    (secret ≠ "" → j.score = some sc →
      ((verifyRecaptcha secret minScore token (.ok j)).1 = .ok true ↔
        (j.success = true ∧ minScore ≤ sc))) ∧
    (secret ≠ "" → j.score = none →
      ((verifyRecaptcha secret minScore token (.ok j)).1 = .ok true ↔
        j.success = true)) := by
  refine ⟨by simp [verifyRecaptcha], ?_, ?_, ?_⟩
  · intro hs
    unfold verifyRecaptcha
    rw [if_neg hs]
    rcases provider with msg | j'
    · rfl
    · by_cases hsucc : j'.success = false
      · simp [hsucc]
      · rcases hsc : j'.score with _ | sc'
        · simp [hsucc, hsc]
        · by_cases hlt : sc' < minScore <;> simp [hsucc, hsc, hlt]
  · intro hs hsc
    unfold verifyRecaptcha
    rw [if_neg hs]
    by_cases hsucc : j.success = false
    · simp [hsucc, hsc]
    · rw [Bool.not_eq_false] at hsucc
      by_cases hlt : sc < minScore
      · simp [hsucc, hsc, hlt, not_le.mpr hlt]
      · simp [hsucc, hsc, hlt, not_lt.mp hlt]
  · intro hs hsc
    unfold verifyRecaptcha
    rw [if_neg hs]
    by_cases hsucc : j.success = false
    · simp [hsucc, hsc]
    · rw [Bool.not_eq_false] at hsucc
      simp [hsucc, hsc]

/-- C3 witness: secret `"sek"`, empty token, provider success with score
`7/10` at threshold `1/2` — the provider is contacted and the stage
accepts exactly because `1/2 ≤ 7/10`. -/
theorem C3_captcha_gate_witness :
    ((verifyRecaptcha "sek" (1 / 2) "" (.ok ⟨true, some (7 / 10)⟩)).2 = true) ∧
    ((verifyRecaptcha "sek" (1 / 2) "" (.ok ⟨true, some (7 / 10)⟩)).1 = .ok true ↔
      (true = true ∧ (1 / 2 : ℚ) ≤ 7 / 10)) := by
  have h := C3_captcha_gate "sek" (1 / 2) "" ⟨true, some (7 / 10)⟩ (7 / 10)
    (.ok ⟨true, some (7 / 10)⟩)
  exact ⟨h.2.1 (by decide), h.2.2.1 (by decide) rfl⟩

/-- Every response of the CORS handler carries `Vary: Origin`. -/
theorem corsHandler_varyOrigin (cfg : CorsConfig) (method origin : String)
    (ps : Params) (provider : Except String CaptchaVerdict)
    (backend : Except String (List OrderNode)) :
    (corsHandler cfg method origin ps provider backend).varyOrigin = true := by
  by_cases h1 : method = "OPTIONS"
  case pos => simp [corsHandler, h1]
  by_cases h2 : origin ∈ allowedOrigins cfg.allowedOriginsRaw
  case neg => simp [corsHandler, h1, h2]
  by_cases h3 : jsTrim (getParamD ps "order" "") = "" ∨
    jsToLower (jsTrim (getParamD ps "email" "")) = ""
  case pos => simp [corsHandler, h1, h2, h3]
  by_cases h4 : cfg.adminToken = "" ∨ cfg.shop = ""
  case pos => simp [corsHandler, h1, h2, h3, h4]
  rcases hv : verifyRecaptcha cfg.recaptchaSecret cfg.minScore
      (jsTrim (getParamD ps "captchaToken" "")) provider with ⟨vr, contacted⟩
  cases vr with
  | error msg => simp [corsHandler, h1, h2, h3, h4, hv]
  | ok ok =>
    by_cases h5 : ok = false
    case pos => simp [corsHandler, h1, h2, h3, h4, hv, h5]
    cases backend with
    | error msg => simp [corsHandler, h1, h2, h3, h4, hv, h5]
    | ok edges =>
      cases edges with
      | nil => simp [corsHandler, h1, h2, h3, h4, hv, h5]
      | cons node rest => simp [corsHandler, h1, h2, h3, h4, hv, h5]

/-- The CORS-allow header is set exactly for a truthy allowlisted origin,
whatever the rest of the request. -/
theorem corsHandler_acao (cfg : CorsConfig) (method origin : String)
    (ps : Params) (provider : Except String CaptchaVerdict)
    (backend : Except String (List OrderNode)) :
    (corsHandler cfg method origin ps provider backend).acao =
      (if origin ≠ "" ∧ origin ∈ allowedOrigins cfg.allowedOriginsRaw
       then some origin else none) := by
  by_cases h1 : method = "OPTIONS"
  case pos => simp [corsHandler, h1]
  by_cases h2 : origin ∈ allowedOrigins cfg.allowedOriginsRaw
  case neg => simp [corsHandler, h1, h2]
  by_cases h3 : jsTrim (getParamD ps "order" "") = "" ∨
    jsToLower (jsTrim (getParamD ps "email" "")) = ""
  case pos => simp [corsHandler, h1, h2, h3]
  by_cases h4 : cfg.adminToken = "" ∨ cfg.shop = ""
  case pos => simp [corsHandler, h1, h2, h3, h4]
  rcases hv : verifyRecaptcha cfg.recaptchaSecret cfg.minScore
      (jsTrim (getParamD ps "captchaToken" "")) provider with ⟨vr, contacted⟩
  cases vr with
  | error msg => simp [corsHandler, h1, h2, h3, h4, hv]
  | ok ok =>
    by_cases h5 : ok = false
    case pos => simp [corsHandler, h1, h2, h3, h4, hv, h5]
    cases backend with
    | error msg => simp [corsHandler, h1, h2, h3, h4, hv, h5]
    | ok edges =>
      cases edges with
      | nil => simp [corsHandler, h1, h2, h3, h4, hv, h5]
      | cons node rest => simp [corsHandler, h1, h2, h3, h4, hv, h5]

/-- C4 counterexample.  Two concrete requests refute the claim as stated:
(a) with the allowlist configuration unset the parsed allowlist is `[""]`,
so the empty origin IS an exact allowlisted member, yet no
`Access-Control-Allow-Origin` header is set (the claim says the header
then equals that origin) and the pipeline continues to validation (400);
(b) a preflight `OPTIONS` request from a non-allowlisted origin is
answered 204, not 403. -/
theorem C4_origin_gate_counterexample :
    ("" ∈ allowedOrigins "") ∧
    ((corsHandler cfgNoOrigins "POST" "" [] (.ok ⟨true, none⟩) (.ok [])).acao = none) ∧
    ((corsHandler cfgNoOrigins "POST" "" [] (.ok ⟨true, none⟩) (.ok [])).resp.status = 400) ∧
    (("https://evil.example" ∈ allowedOrigins "https://a.example") = False) ∧
    ((corsHandler cfgOneOrigin "OPTIONS" "https://evil.example" []
        (.ok ⟨true, none⟩) (.ok [])).resp.status = 204) := by
  refine ⟨by decide, rfl, rfl, by simp [allowedOrigins, splitOnComma, jsTrim, dropLeadingSpaces, isJsSpace], rfl⟩

/-- C4 (amended): in CORS mode every non-preflight (non-`OPTIONS`) request
whose Origin is not an exact member of the allowlist is denied 403 before
the CAPTCHA or backend stages run; when a NON-EMPTY Origin is an exact
allowlisted value the `Access-Control-Allow-Origin` header equals exactly
that origin (an allowlisted empty origin — the unset-allowlist default —
passes the gate with no allow header); the allow header never holds
anything but the request's own allowlisted origin; and every response
carries `Vary: Origin`. -/
theorem C4_origin_gate (cfg : CorsConfig) (method origin : String) (ps : Params)
    (provider : Except String CaptchaVerdict) (backend : Except String (List OrderNode)) :
    ((corsHandler cfg method origin ps provider backend).varyOrigin = true) ∧
    (method ≠ "OPTIONS" → origin ∉ allowedOrigins cfg.allowedOriginsRaw →
      (corsHandler cfg method origin ps provider backend).resp.status = 403 ∧
      (corsHandler cfg method origin ps provider backend).resp.error =
        some "Origin not allowed" ∧
      (corsHandler cfg method origin ps provider backend).captchaContacted = false ∧
      (corsHandler cfg method origin ps provider backend).backendCall = none) ∧
    (origin ≠ "" → origin ∈ allowedOrigins cfg.allowedOriginsRaw →
      (corsHandler cfg method origin ps provider backend).acao = some origin) ∧
    (∀ o : String, (corsHandler cfg method origin ps provider backend).acao = some o →
      o = origin ∧ o ∈ allowedOrigins cfg.allowedOriginsRaw) := by
  refine ⟨corsHandler_varyOrigin cfg method origin ps provider backend, ?_, ?_, ?_⟩
  · intro h1 h2
    simp [corsHandler, h1, h2]
  · intro h1 h2
    rw [corsHandler_acao]
    simp [h1, h2]
  · intro o ho
    rw [corsHandler_acao] at ho
    by_cases hc : origin ≠ "" ∧ origin ∈ allowedOrigins cfg.allowedOriginsRaw
    · rw [if_pos hc] at ho
      cases ho
      exact ⟨rfl, hc.2⟩
    · rw [if_neg hc] at ho
      exact absurd ho (by simp)

/-- C4 witness: a non-preflight request from a non-allowlisted origin is
denied 403 with no CAPTCHA or backend contact, and an allowlisted
non-empty origin is echoed back in the allow header. -/
theorem C4_origin_gate_witness :
    ((corsHandler cfgOneOrigin "POST" "https://evil.example" []
        (.ok ⟨true, none⟩) (.ok [])).resp.status = 403 ∧
     (corsHandler cfgOneOrigin "POST" "https://evil.example" []
        (.ok ⟨true, none⟩) (.ok [])).resp.error = some "Origin not allowed" ∧
     (corsHandler cfgOneOrigin "POST" "https://evil.example" []
        (.ok ⟨true, none⟩) (.ok [])).captchaContacted = false ∧
     (corsHandler cfgOneOrigin "POST" "https://evil.example" []
        (.ok ⟨true, none⟩) (.ok [])).backendCall = none) ∧
    ((corsHandler cfgOneOrigin "POST" "https://a.example" []
        (.ok ⟨true, none⟩) (.ok [])).acao = some "https://a.example") := by
  constructor
  · exact (C4_origin_gate cfgOneOrigin "POST" "https://evil.example" []
      (.ok ⟨true, none⟩) (.ok [])).2.1 (by decide) (by decide)
  · exact (C4_origin_gate cfgOneOrigin "POST" "https://a.example" []
      (.ok ⟨true, none⟩) (.ok [])).2.2.1 (by decide) (by decide)

/-- C5: status formatting.  The proxy variant's `titleCase` performs the
specified transform: `UNFULFILLED ↦ Unfulfilled`, `IN_TRANSIT ↦ In
Transit`, and an absent raw value (defaulted to `UNKNOWN`) yields
`Unknown` in a full handler run.  The CORS variant's `titleCase`,
however, carries the miswritten regex literal `/(^|\\s)\\S/g` (matching
literal backslash sequences instead of whitespace boundaries), so it
leaves the lowercased string unchanged — `UNFULFILLED ↦ unfulfilled` —
and a full CORS-mode run answers `displayStatus = "unfulfilled"`,
contradicting the claimed `Unfulfilled`. -/
theorem C5_status_formatting :
    (titleCase "UNFULFILLED" = "Unfulfilled") ∧
    (titleCase "IN_TRANSIT" = "In Transit") ∧
    (titleCase "UNKNOWN" = "Unknown") ∧
    ((proxyHandler cfgOpenShop hmacStub psFull (.ok [nodeNoStatus])).resp.displayStatus =
      some "Unknown") ∧
    (titleCaseCors "UNFULFILLED" = "unfulfilled") ∧
    (titleCaseCors "IN_TRANSIT" = "in transit") ∧
    ((corsHandler cfgNoOrigins "POST" "" psCors (.ok ⟨true, none⟩)
        (.ok [nodeUnfulfilled])).resp.displayStatus = some "unfulfilled") := by
  refine ⟨rfl, rfl, rfl, rfl, rfl, rfl, rfl⟩

/-- C6: the response's tracking list is the order-preserving concatenation
of the fulfillment groups' tracking lists: it is empty for an absent or
empty fulfillment list, a leading group contributes its (possibly absent,
then empty) tracking list in front of the rest, the spec's example
`[A,B] ++ [C] = [A,B,C]` holds, and a found handler response carries
exactly this flattening of the matched record's fulfillments. -/
theorem C6_tracking_flattening (ts : List TrackingEntry) (gs : List Fulfillment)
    (node : OrderNode) :
    (flattenTracking none = []) ∧
    (flattenTracking (some []) = []) ∧
    (flattenTracking (some (⟨some ts⟩ :: gs)) = ts ++ flattenTracking (some gs)) ∧
    (flattenTracking (some (⟨none⟩ :: gs)) = flattenTracking (some gs)) ∧
    (flattenTracking (some [⟨some [teA, teB]⟩, ⟨some [teC]⟩]) = [teA, teB, teC]) ∧
    ((proxyHandler cfgOpenShop hmacStub psFull (.ok [node])).resp.tracking =
      some (flattenTracking node.fulfillments)) := by
  refine ⟨rfl, rfl, by simp [flattenTracking], by simp [flattenTracking], by decide, ?_⟩
  have hv : verifyProxySignature hmacStub cfgOpenShop.apiSecret psFull = true := by decide
  have h2 : ¬ (jsTrim (getParamD psFull "order" "") = "" ∨
      jsToLower (jsTrim (getParamD psFull "email" "")) = "") := by decide
  have h3 : ¬ (cfgOpenShop.allowedShop ≠ "" ∧
      getParamD psFull "shop" "" ≠ cfgOpenShop.allowedShop) := by decide
  have h4 : ¬ cfgOpenShop.adminToken = "" := by decide
  simp [proxyHandler, hv, h2, h3, h4]

/-- C7 counterexample: a correctly signed request that names a shop
outside the allowlist AND is missing the order/email fields is answered
400 `Missing order or email` (validation), not 403 — the claim says the
tenant authorization failure (403) wins. -/
theorem C7_stage_order_counterexample :
    (verifyProxySignature hmacStub cfgLockedShop.apiSecret psNoFields = true) ∧
    (getParamD psNoFields "shop" "" ≠ cfgLockedShop.allowedShop) ∧
    (cfgLockedShop.allowedShop ≠ "") ∧
    ((proxyHandler cfgLockedShop hmacStub psNoFields (.ok [])).resp.status = 400) ∧
    ((proxyHandler cfgLockedShop hmacStub psNoFields (.ok [])).resp.error =
      some "Missing order or email") := by
  refine ⟨by decide, by decide, by decide, rfl, rfl⟩

/-- C7 (amended): in signed-proxy mode the signature check does precede
everything (an unverified request is answered 401 regardless of other
fields), but input validation precedes the tenant allowlist check: a
verified request missing order or email is answered 400 whatever its
`shop` value, and 403 `Shop not allowed` occurs exactly when the
signature verifies, both fields are present, a shop allowlist is
configured, and the request's shop differs from it. -/
theorem C7_stage_order (cfg : ProxyConfig) (hmac : String → String → String)
    (ps : Params) (backend : Except String (List OrderNode)) :
    (¬ verifyProxySignature hmac cfg.apiSecret ps = true →
      (proxyHandler cfg hmac ps backend).resp.status = 401) ∧
    (verifyProxySignature hmac cfg.apiSecret ps = true →
      (jsTrim (getParamD ps "order" "") = "" ∨
        jsToLower (jsTrim (getParamD ps "email" "")) = "") →
      (proxyHandler cfg hmac ps backend).resp.status = 400 ∧
      (proxyHandler cfg hmac ps backend).resp.error = some "Missing order or email") ∧
    ((proxyHandler cfg hmac ps backend).resp.status = 403 ↔
      (verifyProxySignature hmac cfg.apiSecret ps = true ∧
        ¬ (jsTrim (getParamD ps "order" "") = "" ∨
            jsToLower (jsTrim (getParamD ps "email" "")) = "") ∧
        cfg.allowedShop ≠ "" ∧ getParamD ps "shop" "" ≠ cfg.allowedShop)) := by
  by_cases h1 : verifyProxySignature hmac cfg.apiSecret ps = true
  case neg =>
    refine ⟨fun _ => by simp [proxyHandler, h1], fun hv => absurd hv h1, ?_⟩
    simp [proxyHandler, h1]
  refine ⟨fun hn => absurd h1 hn, ?_, ?_⟩
  · intro _ h2
    constructor <;> simp [proxyHandler, h1, h2]
  · by_cases h2 : jsTrim (getParamD ps "order" "") = "" ∨
      jsToLower (jsTrim (getParamD ps "email" "")) = ""
    case pos => simp [proxyHandler, h1, h2]
    by_cases h3 : cfg.allowedShop ≠ "" ∧ getParamD ps "shop" "" ≠ cfg.allowedShop
    case pos => simp [proxyHandler, h1, h2, h3]
    by_cases h4 : cfg.adminToken = ""
    case pos => simp [proxyHandler, h1, h2, h3, h4]
    cases backend with
    | error msg => simp [proxyHandler, h1, h2, h3, h4]
    | ok edges =>
      cases edges with
      | nil => simp [proxyHandler, h1, h2, h3, h4]
      | cons node rest => simp [proxyHandler, h1, h2, h3, h4]

/-- C7 witness: the 401-first and 400-before-403 behaviors at concrete
requests. -/
theorem C7_stage_order_witness :
    ((proxyHandler cfgLockedShop hmacStub [] (.ok [])).resp.status = 401) ∧
    ((proxyHandler cfgLockedShop hmacStub psNoFields (.ok [])).resp.status = 400 ∧
      (proxyHandler cfgLockedShop hmacStub psNoFields (.ok [])).resp.error =
        some "Missing order or email") := by
  constructor
  · exact (C7_stage_order cfgLockedShop hmacStub [] (.ok [])).1 (by decide)
  · exact (C7_stage_order cfgLockedShop hmacStub psNoFields (.ok [])).2.1
      (by decide) (by decide)

/-- A CAPTCHA-stage exception can only be the provider call's own
exception. -/
theorem verifyRecaptcha_error (secret : String) (minScore : ℚ) (token m : String)
    (provider : Except String CaptchaVerdict) (c : Bool)
    (h : verifyRecaptcha secret minScore token provider = (.error m, c)) :
    provider = .error m := by
  unfold verifyRecaptcha at h
  by_cases hs : secret = ""
  · rw [if_pos hs] at h
    exact absurd h (by simp)
  · rw [if_neg hs] at h
    rcases provider with msg | j
    · simp only [Prod.mk.injEq, Except.error.injEq] at h
      rw [h.1]
    · by_cases hsucc : j.success = false
      · simp [hsucc] at h
      · rcases hsc : j.score with _ | sc
        · simp [hsucc, hsc] at h
        · by_cases hlt : sc < minScore <;> simp [hsucc, hsc, hlt] at h

/-- C8 counterexample: when the backend call throws, the 500 response's
`error` string is the exception's message verbatim — here a network
error string that is none of the program's fixed short messages. -/
theorem C8_error_leak_counterexample :
    ((proxyHandler cfgOpenShop hmacStub psFull
        (.error "connect ECONNREFUSED 10.0.0.5:443")).resp.status = 500) ∧
    ((proxyHandler cfgOpenShop hmacStub psFull
        (.error "connect ECONNREFUSED 10.0.0.5:443")).resp.error =
      some "connect ECONNREFUSED 10.0.0.5:443") ∧
    ("connect ECONNREFUSED 10.0.0.5:443" ∉ fixedErrorMessages) := by
  refine ⟨rfl, rfl, by decide⟩

/-- C8 (amended): every `error` string either is one of the program's
fixed short messages, or belongs to a 500 response produced by the
`catch` block and is then exactly the caught exception's (non-empty)
message — the message of the failed backend call or, in CORS mode, of the
failed CAPTCHA-provider call.  Exception text therefore does reach
responses; only an empty/absent exception message falls back to the fixed
`Server error`. -/
theorem C8_error_messages (cfgP : ProxyConfig) (hmac : String → String → String)
    (psP : Params) (backendP : Except String (List OrderNode))
    (cfgC : CorsConfig) (method origin : String) (psC : Params)
    (provider : Except String CaptchaVerdict)
    (backendC : Except String (List OrderNode)) :
    (∀ m, (proxyHandler cfgP hmac psP backendP).resp.error = some m →
      m ∈ fixedErrorMessages ∨
        ((proxyHandler cfgP hmac psP backendP).resp.status = 500 ∧
          backendP = .error m ∧ m ≠ "")) ∧
    (∀ m, (corsHandler cfgC method origin psC provider backendC).resp.error = some m →
      m ∈ fixedErrorMessages ∨
        ((corsHandler cfgC method origin psC provider backendC).resp.status = 500 ∧
          (provider = .error m ∨ backendC = .error m) ∧ m ≠ "")) := by
  constructor
  · intro m hm
    by_cases h1 : verifyProxySignature hmac cfgP.apiSecret psP = true
    case neg => simp [proxyHandler, h1] at hm; simp [hm, fixedErrorMessages]
    by_cases h2 : jsTrim (getParamD psP "order" "") = "" ∨
      jsToLower (jsTrim (getParamD psP "email" "")) = ""
    case pos => simp [proxyHandler, h1, h2] at hm; simp [hm, fixedErrorMessages]
    by_cases h3 : cfgP.allowedShop ≠ "" ∧ getParamD psP "shop" "" ≠ cfgP.allowedShop
    case pos => simp [proxyHandler, h1, h2, h3] at hm; simp [hm, fixedErrorMessages]
    by_cases h4 : cfgP.adminToken = ""
    case pos => simp [proxyHandler, h1, h2, h3, h4] at hm; simp [hm, fixedErrorMessages]
    cases backendP with
    | error msg =>
      simp only [proxyHandler, h1, h2, h3, h4] at hm
      by_cases hmsg : msg = ""
      · left
        simp [hmsg] at hm
        simp [hm, fixedErrorMessages]
      · right
        simp [hmsg] at hm
        simp [proxyHandler, h1, h2, h3, h4, ← hm, hmsg]
    | ok edges =>
      cases edges with
      | nil => simp [proxyHandler, h1, h2, h3, h4] at hm
      | cons node rest => simp [proxyHandler, h1, h2, h3, h4] at hm
  · intro m hm
    by_cases h1 : method = "OPTIONS"
    case pos => simp [corsHandler, h1] at hm
    by_cases h2 : origin ∈ allowedOrigins cfgC.allowedOriginsRaw
    case neg => simp [corsHandler, h1, h2] at hm; simp [hm, fixedErrorMessages]
    by_cases h3 : jsTrim (getParamD psC "order" "") = "" ∨
      jsToLower (jsTrim (getParamD psC "email" "")) = ""
    case pos => simp [corsHandler, h1, h2, h3] at hm; simp [hm, fixedErrorMessages]
    by_cases h4 : cfgC.adminToken = "" ∨ cfgC.shop = ""
    case pos => simp [corsHandler, h1, h2, h3, h4] at hm; simp [hm, fixedErrorMessages]
    rcases hv : verifyRecaptcha cfgC.recaptchaSecret cfgC.minScore
        (jsTrim (getParamD psC "captchaToken" "")) provider with ⟨vr, contacted⟩
    cases vr with
    | error msg =>
      simp only [corsHandler, h1, h2, h3, h4, hv] at hm
      by_cases hmsg : msg = ""
      · left
        simp [hmsg] at hm
        simp [hm, fixedErrorMessages]
      · right
        simp [hmsg] at hm
        refine ⟨by simp [corsHandler, h1, h2, h3, h4, hv], ?_, by rw [← hm]; exact hmsg⟩
        left
        rw [← hm]
        exact verifyRecaptcha_error _ _ _ _ _ _ hv
    | ok ok =>
      by_cases h5 : ok = false
      case pos =>
        simp [corsHandler, h1, h2, h3, h4, hv, h5] at hm
        simp [hm, fixedErrorMessages]
      cases backendC with
      | error msg =>
        simp only [corsHandler, h1, h2, h3, h4, hv, h5] at hm
        by_cases hmsg : msg = ""
        · left
          simp [h5, hmsg] at hm
          simp [hm, fixedErrorMessages]
        · right
          simp [h5, hmsg] at hm
          exact ⟨by simp [corsHandler, h1, h2, h3, h4, hv, h5],
            Or.inr (by rw [← hm]), by rw [← hm]; exact hmsg⟩
      | ok edges =>
        cases edges with
        | nil => simp [corsHandler, h1, h2, h3, h4, hv, h5] at hm
        | cons node rest => simp [corsHandler, h1, h2, h3, h4, hv, h5] at hm

/-- C8 witness: an exception with an empty (falsy) message yields the
fixed fallback `Server error`. -/
theorem C8_error_messages_witness :
    "Server error" ∈ fixedErrorMessages ∨
      ((proxyHandler cfgOpenShop hmacStub psFull
          (.error "")).resp.status = 500 ∧
        (.error "" : Except String (List OrderNode)) = .error "Server error" ∧
        "Server error" ≠ "") :=
  (C8_error_messages cfgOpenShop hmacStub psFull (.error "")
    cfgNoOrigins "POST" "" [] (.ok ⟨true, none⟩) (.ok [])).1 "Server error" rfl

/-- C9: in signed-proxy mode, with no allowed shop configured
(`ALLOWED_SHOP` unset), the tenant check passes for every value of the
client-supplied `shop` parameter — the handler never answers 403 — and
whenever the pipeline reaches the backend, the request (carrying the
admin access token) is sent to the host named by that client-supplied
`shop` value. -/
theorem C9_unset_shop_allowlist (cfg : ProxyConfig) (hmac : String → String → String)
    (ps : Params) (backend : Except String (List OrderNode))
    (hshop : cfg.allowedShop = "") :
    ((proxyHandler cfg hmac ps backend).resp.status ≠ 403) ∧
    (verifyProxySignature hmac cfg.apiSecret ps = true →
      ¬ (jsTrim (getParamD ps "order" "") = "" ∨
          jsToLower (jsTrim (getParamD ps "email" "")) = "") →
      cfg.adminToken ≠ "" →
      (proxyHandler cfg hmac ps backend).backendCall =
        some ⟨getParamD ps "shop" "", cfg.apiVersion, cfg.adminToken,
          buildQuery (jsToLower (jsTrim (getParamD ps "email" "")))
            (stripLeadingHash (jsTrim (getParamD ps "order" "")))⟩) := by
  have h3 : ¬ (cfg.allowedShop ≠ "" ∧ getParamD ps "shop" "" ≠ cfg.allowedShop) := by
    simp [hshop]
  refine ⟨?_, ?_⟩
  · by_cases h1 : verifyProxySignature hmac cfg.apiSecret ps = true
    case neg => simp [proxyHandler, h1]
    by_cases h2 : jsTrim (getParamD ps "order" "") = "" ∨
      jsToLower (jsTrim (getParamD ps "email" "")) = ""
    case pos => simp [proxyHandler, h1, h2]
    by_cases h4 : cfg.adminToken = ""
    case pos => simp [proxyHandler, h1, h2, h3, h4]
    cases backend with
    | error msg => simp [proxyHandler, h1, h2, h3, h4]
    | ok edges =>
      cases edges with
      | nil => simp [proxyHandler, h1, h2, h3, h4]
      | cons node rest => simp [proxyHandler, h1, h2, h3, h4]
  · intro h1 h2 h4
    cases backend with
    | error msg => simp [proxyHandler, h1, h2, h3, h4, buildQuery]
    | ok edges =>
      cases edges with
      | nil => simp [proxyHandler, h1, h2, h3, h4, buildQuery]
      | cons node rest => simp [proxyHandler, h1, h2, h3, h4, buildQuery]

/-- C9 witness: with `ALLOWED_SHOP` unset, a signed request naming
`attacker.example` as its shop is forwarded there, admin token attached. -/
theorem C9_unset_shop_allowlist_witness :
    (proxyHandler cfgOpenShop hmacStub psFull (.ok [])).backendCall =
      some ⟨getParamD psFull "shop" "", cfgOpenShop.apiVersion, cfgOpenShop.adminToken,
        buildQuery (jsToLower (jsTrim (getParamD psFull "email" "")))
          (stripLeadingHash (jsTrim (getParamD psFull "order" "")))⟩ :=
  (C9_unset_shop_allowlist cfgOpenShop hmacStub psFull (.ok []) rfl).2
    (by decide) (by decide) (by decide)

/-- C10: in CORS mode with `ALLOWED_ORIGINS` unset or empty, the parsed
allowlist is `[""]` — it contains the empty string — so a request with no
Origin header (origin defaulting to `""`) passes the origin allowlist
check and continues to the later pipeline stages (here: it reaches input
validation, and the handler never answers 403), while no
`Access-Control-Allow-Origin` header is set on the response. -/
theorem C10_empty_allowlist (cfg : CorsConfig) (method : String) (ps : Params)
    (provider : Except String CaptchaVerdict) (backend : Except String (List OrderNode))
    (hraw : cfg.allowedOriginsRaw = "") :
    (allowedOrigins "" = [""]) ∧
    ("" ∈ allowedOrigins cfg.allowedOriginsRaw) ∧
    ((corsHandler cfg method "" ps provider backend).acao = none) ∧
    ((corsHandler cfg method "" ps provider backend).resp.status ≠ 403) ∧
    (method ≠ "OPTIONS" → jsTrim (getParamD ps "order" "") = "" →
      (corsHandler cfg method "" ps provider backend).resp.status = 400 ∧
      (corsHandler cfg method "" ps provider backend).resp.error =
        some "Missing order or email") := by
  have h2 : "" ∈ allowedOrigins cfg.allowedOriginsRaw := by rw [hraw]; decide
  refine ⟨by decide, h2, ?_, ?_, ?_⟩
  · rw [corsHandler_acao]
    simp
  · by_cases h1 : method = "OPTIONS"
    case pos => simp [corsHandler, h1]
    by_cases h3 : jsTrim (getParamD ps "order" "") = "" ∨
      jsToLower (jsTrim (getParamD ps "email" "")) = ""
    case pos => simp [corsHandler, h1, h2, h3]
    by_cases h4 : cfg.adminToken = "" ∨ cfg.shop = ""
    case pos => simp [corsHandler, h1, h2, h3, h4]
    rcases hv : verifyRecaptcha cfg.recaptchaSecret cfg.minScore
        (jsTrim (getParamD ps "captchaToken" "")) provider with ⟨vr, contacted⟩
    cases vr with
    | error msg => simp [corsHandler, h1, h2, h3, h4, hv]
    | ok ok =>
      by_cases h5 : ok = false
      case pos => simp [corsHandler, h1, h2, h3, h4, hv, h5]
      cases backend with
      | error msg => simp [corsHandler, h1, h2, h3, h4, hv, h5]
      | ok edges =>
        cases edges with
        | nil => simp [corsHandler, h1, h2, h3, h4, hv, h5]
        | cons node rest => simp [corsHandler, h1, h2, h3, h4, hv, h5]
  · intro h1 h3
    constructor <;> simp [corsHandler, h1, h2, h3]

/-- C10 witness: with the allowlist configuration empty, an origin-less
request reaches input validation (400 for missing fields) with no
CORS-allow header. -/
theorem C10_empty_allowlist_witness :
    ((corsHandler cfgNoOrigins "POST" "" [] (.ok ⟨true, none⟩) (.ok [])).acao = none) ∧
    ((corsHandler cfgNoOrigins "POST" "" [] (.ok ⟨true, none⟩) (.ok [])).resp.status = 400 ∧
      (corsHandler cfgNoOrigins "POST" "" [] (.ok ⟨true, none⟩) (.ok [])).resp.error =
        some "Missing order or email") := by
  have h := C10_empty_allowlist cfgNoOrigins "POST" [] (.ok ⟨true, none⟩) (.ok []) rfl
  exact ⟨h.2.2.1, h.2.2.2.2 (by decide) (by decide)⟩

end FulfillmentTracking
